import Mathlib

/-!
Shallow embedding of the clixon SNMP protocol-adaptation layer
(`snmp_handler.c`), its modules-state reporter (`clixon_yang_module.c`)
and its logging facility (`clixon_log.c`), together with theorems about
the behaviour of the embedded code.

External collaborators (the net-snmp runtime, the NETCONF datastore
client, the type translator, memory allocation) are modelled as oracles
carried in environment records; each handler returns its C return value
together with the trace of observable calls it made.
-/

namespace Clixon

/-- Yang statement keywords (subset of the `Y_...` enum used by the sources). -/
inductive YKeyword where
  | Y_MODULE
  | Y_REVISION
  | Y_NAMESPACE
  | Y_FEATURE
  | Y_SUBMODULE
  | Y_LIST
  | Y_LEAF
  | Y_OTHER
deriving DecidableEq, BEq, Repr

/-- Yang statement tree node: keyword, argument string, optional boolean
cligen value (`ys_cv`, used for feature enablement), and children in
stored (document) order. -/
inductive YangStmt where
  | mk (keyword : YKeyword) (arg : String) (cv : Option Bool) (children : List YangStmt)

/-- Keyword accessor (`ys_keyword`). -/
def YangStmt.keyword : YangStmt → YKeyword
  | .mk k _ _ _ => k

/-- Argument accessor (`ys_argument`). -/
def YangStmt.arg : YangStmt → String
  | .mk _ a _ _ => a

/-- Cligen-value accessor (`ys_cv`, as a boolean for features). -/
def YangStmt.cv : YangStmt → Option Bool
  | .mk _ _ c _ => c

/-- Children accessor, in stored order (`yn_each` iteration order). -/
def YangStmt.children : YangStmt → List YangStmt
  | .mk _ _ _ cs => cs

/-- Embedding of `yang_find(yn, keyword, argument)`: first child whose
keyword matches, and whose argument matches when one is given (a NULL
argument in C matches any child of the keyword). -/
def yang_find (y : YangStmt) (k : YKeyword) (name : Option String) : Option YangStmt :=
  y.children.find? (fun c =>
    c.keyword == k && (match name with
                       | none => true
                       | some s => c.arg == s))

/-- Operation modes delivered by the net-snmp agent runtime. -/
inductive SnmpMode where
  | MODE_GET
  | MODE_GETNEXT
  | MODE_SET_RESERVE1
  | MODE_SET_RESERVE2
  | MODE_SET_ACTION
  | MODE_SET_UNDO
  | MODE_SET_COMMIT
  | MODE_SET_FREE
deriving DecidableEq, Repr

/-- Per-object request errors set via `netsnmp_set_request_error`. -/
inductive ReqErr where
  | noSuchInstance
  | wrongType
deriving DecidableEq, Repr

/-- NETCONF edit-config operations (only `OP_MERGE` is used by this code). -/
inductive EditOp where
  | OP_MERGE
  | OP_REPLACE
  | OP_NONE
deriving DecidableEq, Repr

/-- Observable events of a scalar-handler invocation: RPCs issued to the
datastore client, per-object error annotations on the request context,
value attachment to the response variable, the netconf-error log call,
and the assignment of the ASN.1 type to the request variable. -/
inductive Event where
  | rpcGet (xpath : String)
  | rpcEditConfig (target : String) (op : EditOp) (payload : String)
  | rpcCommit
  | rpcDiscardChanges
  | logNetconfErr
  | setReqErr (e : ReqErr)
  | setVarValue (bytes : List Nat)
  | setVbType (asn1 : Int)
deriving DecidableEq, Repr

/-- Handler outcome: either an abort on a failed `assert`, or the C
return value. -/
inductive HRes where
  | abort
  | ret (code : Int)
deriving DecidableEq, Repr

/-- Result of `type_yang2snmp`: -1 (fatal), 0 (handled: the translator
set a per-object error itself), or 1 with the translated SNMP bytes. -/
inductive TrRes where
  | fatal
  | handled
  | ok (bytes : List Nat)

/-- Result of `type_snmp2yang`: -1 (fatal), 0 (handled), or 1 with the
translated YANG string value. -/
inductive Tr2Res where
  | fatal
  | handled
  | ok (valstr : String)

/-- Result of `api_path2xml`: -1 (error), 0 (invalid path), 1 (ok). -/
inductive ApiPathRes where
  | err
  | invalid
  | ok

/-- The net-snmp `SNMP_ERR_NOERROR` status. -/
def SNMP_ERR_NOERROR : Int := 0

/-- The net-snmp `SNMP_ERR_GENERR` status. -/
def SNMP_ERR_GENERR : Int := 5

/-- Oracle environment for one scalar-handler invocation: outcomes of
every external collaborator call the handler can make, plus the inputs
(registration record and request) it reads. -/
structure ScalarEnv where
  assertsOk : Bool
  yangTypes : Option Int
  vbType : Int
  nsctxOk : Bool
  xpathOk : Bool
  xpath : String
  rpcGetOk : Bool
  rpcGetErrDoc : Bool
  getValue : Option (Option String)
  defaultVal : Option String
  yang2snmp : Option String → TrRes
  setVarOk : Bool
  dbspecOk : Bool
  xmlNewOk : Bool
  apiPathFmtOk : Bool
  apiPath2xml : ApiPathRes
  xmlNewBodyOk : Bool
  snmp2yang : Tr2Res
  xmlValueSetOk : Bool
  cbufNewOk : Bool
  xml2cbufOk : Bool
  payload : String → String
  rpcEditOk : Bool
  rpcDiscardOk : Bool
  rpcCommitOk : Bool

/-- Embedding of `snmp_scalar_get`: build namespace context and xpath,
issue `clicon_rpc_get`, check for an embedded `rpc-error` document, pick
the value from the result tree or fall back to the SMIv2 default or mark
`SNMP_NOSUCHINSTANCE`, translate yang to snmp and attach the value with
`snmp_set_var_value`. Returns the C return value and the event trace. -/
def snmp_scalar_get (env : ScalarEnv) : Int × List Event :=
  if !env.nsctxOk then (-1, [])
  else if !env.xpathOk then (-1, [])
  else if !env.rpcGetOk then (-1, [.rpcGet env.xpath])
  else if env.rpcGetErrDoc then (-1, [.rpcGet env.xpath, .logNetconfErr])
  else
    match (match env.getValue with
           | some body => some body
           | none => (match env.defaultVal with
                      | some d => some (some d)
                      | none => none)) with
    | none => (0, [.rpcGet env.xpath, .setReqErr .noSuchInstance])
    | some valstr =>
      match env.yang2snmp valstr with
      | .fatal => (-1, [.rpcGet env.xpath])
      | .handled => (0, [.rpcGet env.xpath])
      | .ok bytes =>
        if env.setVarOk then (0, [.rpcGet env.xpath, .setVarValue bytes])
        else (-1, [.rpcGet env.xpath])

/-- Embedding of `snmp_scalar_set`: look up the DB spec, build the edit
tree from the api-path, translate the SNMP value to its string form, set
it as the body, serialize, and stage it with
`clicon_rpc_edit_config(h, "candidate", OP_MERGE, payload)`. -/
def snmp_scalar_set (env : ScalarEnv) : Int × List Event :=
  if !env.dbspecOk then (-1, [])
  else if !env.xmlNewOk then (-1, [])
  else if !env.apiPathFmtOk then (-1, [])
  else
    match env.apiPath2xml with
    | .err => (-1, [])
    | .invalid => (-1, [])
    | .ok =>
      if !env.xmlNewBodyOk then (-1, [])
      else
        match env.snmp2yang with
        | .fatal => (-1, [])
        | .handled => (0, [])
        | .ok valstr =>
          if !env.xmlValueSetOk then (-1, [])
          else if !env.cbufNewOk then (-1, [])
          else if !env.xml2cbufOk then (-1, [])
          else if env.rpcEditOk then
            (0, [.rpcEditConfig "candidate" .OP_MERGE (env.payload valstr)])
          else (-1, [.rpcEditConfig "candidate" .OP_MERGE (env.payload valstr)])

/-- Embedding of `snmp_scalar_handler`: entry asserts on the OIDs, the
`yang2snmp_types` lookup, then the mode switch (GET delegates to
`snmp_scalar_get`; GETNEXT is `assert(0)`; RESERVE1 checks the ASN.1
tag and marks `SNMP_ERR_WRONGTYPE` on mismatch; RESERVE2 and FREE are
empty; ACTION delegates to `snmp_scalar_set`; UNDO issues
`clicon_rpc_discard_changes`; COMMIT issues `clicon_rpc_commit`). -/
def snmp_scalar_handler (env : ScalarEnv) (mode : SnmpMode) : HRes × List Event :=
  if !env.assertsOk then (.abort, [])
  else
    match env.yangTypes with
    | none => (.ret (-1), [])
    | some asn1 =>
      match mode with
      | .MODE_GET =>
        let r := snmp_scalar_get env
        (if r.1 < 0 then HRes.ret (-1) else .ret SNMP_ERR_NOERROR, .setVbType asn1 :: r.2)
      | .MODE_GETNEXT => (.abort, [])
      | .MODE_SET_RESERVE1 =>
        if env.vbType ≠ asn1 then (.ret SNMP_ERR_NOERROR, [.setReqErr .wrongType])
        else (.ret SNMP_ERR_NOERROR, [])
      | .MODE_SET_RESERVE2 => (.ret SNMP_ERR_NOERROR, [])
      | .MODE_SET_ACTION =>
        let r := snmp_scalar_set env
        (if r.1 < 0 then HRes.ret (-1) else .ret SNMP_ERR_NOERROR, r.2)
      | .MODE_SET_UNDO =>
        if env.rpcDiscardOk then (.ret SNMP_ERR_NOERROR, [.rpcDiscardChanges])
        else (.ret (-1), [.rpcDiscardChanges])
      | .MODE_SET_COMMIT =>
        if env.rpcCommitOk then (.ret SNMP_ERR_NOERROR, [.rpcCommit])
        else (.ret (-1), [.rpcCommit])
      | .MODE_SET_FREE => (.ret SNMP_ERR_NOERROR, [])

/-- Observable events of a table-handler invocation. -/
inductive TEvent where
  | tableCreate
deriving DecidableEq, Repr

/-- Oracle environment for the table handler. -/
structure TableEnv where
  tableCreateOk : Bool

/-- Embedding of `snmp_table_handler`: if the bound yang node has no
`Y_LIST` child the handler returns `SNMP_ERR_NOERROR` at once; otherwise
it calls `clixon_table_create` (failure yields `SNMP_ERR_GENERR`), and
the mode switch performs no further work for any mode. -/
def snmp_table_handler (env : TableEnv) (ys : YangStmt) (_mode : SnmpMode) : Int × List TEvent :=
  match yang_find ys .Y_LIST none with
  | none => (SNMP_ERR_NOERROR, [])
  | some _ =>
    if !env.tableCreateOk then (SNMP_ERR_GENERR, [.tableCreate])
    else (SNMP_ERR_NOERROR, [.tableCreate])

/-- Modelled from the spec: the candidate/running session semantics of
the Datastore Client collaborator (the client implementation is not
among these sources). A configuration is abstracted as the list of
payloads merged into it; `edit-config` on a target appends the staged
payload, `commit` copies candidate to running, `discard-changes` resets
candidate to running. -/
structure Datastore where
  running : List String
  candidate : List String
deriving DecidableEq, Repr

/-- Modelled from the spec: effect of one traced event on the datastore
collaborator state. Events other than datastore RPCs leave it unchanged. -/
def dsStep (ds : Datastore) (e : Event) : Datastore :=
  match e with
  | .rpcEditConfig target _ payload =>
    if target = "candidate" then { ds with candidate := ds.candidate ++ [payload] }
    else if target = "running" then { ds with running := ds.running ++ [payload] }
    else ds
  | .rpcCommit => { ds with running := ds.candidate }
  | .rpcDiscardChanges => { ds with candidate := ds.running }
  | _ => ds

/-- Run a trace of events against the datastore collaborator state. -/
def dsRun (ds : Datastore) (tr : List Event) : Datastore :=
  tr.foldl dsStep ds

/-- Revision fragment emitted for a module or submodule by
`yang_modules_state_get`: the revision argument when a `Y_REVISION`
child exists, an empty element otherwise (never omitted). -/
def revisionFrag (y : YangStmt) : String :=
  match yang_find y .Y_REVISION none with
  | some ys => "<revision>" ++ ys.arg ++ "</revision>"
  | none => "<revision></revision>"

/-- Namespace fragment emitted for a module by `yang_modules_state_get`:
the namespace argument when a `Y_NAMESPACE` child exists, an empty
element otherwise. -/
def namespaceFrag (y : YangStmt) : String :=
  match yang_find y .Y_NAMESPACE none with
  | some ys => "<namespace>" ++ ys.arg ++ "</namespace>"
  | none => "<namespace></namespace>"

/-- Fragment emitted for one child of a module inside the inner
`yn_each` loop of `yang_modules_state_get`: an enabled feature emits a
feature element, a submodule emits name and revision, everything else
emits nothing. -/
def childFrag (yc : YangStmt) : String :=
  match yc.keyword with
  | .Y_FEATURE =>
    if yc.cv = some true then "<feature>" ++ yc.arg ++ "</feature>" else ""
  | .Y_SUBMODULE =>
    "<submodule>" ++ ("<name>" ++ yc.arg ++ "</name>") ++ revisionFrag yc ++ "</submodule>"
  | _ => ""

/-- Inner `yn_each` loop over the children of a module, in stored order. -/
def childLoop : List YangStmt → String
  | [] => ""
  | yc :: rest => childFrag yc ++ childLoop rest

/-- Fragment emitted for one module node of the spec by
`yang_modules_state_get`. -/
def moduleFrag (ymod : YangStmt) : String :=
  "<module>" ++ ("<name>" ++ ymod.arg ++ "</name>")
    ++ revisionFrag ymod ++ namespaceFrag ymod
    ++ childLoop ymod.children
    ++ "</module>"

/-- Outer `yn_each` loop of `yang_modules_state_get` over the children
of the spec in stored order: non-module statements are skipped with
`continue`, each module emits its fragment. -/
def modulesLoop : List YangStmt → String
  | [] => ""
  | ymod :: rest =>
    if ymod.keyword == .Y_MODULE then moduleFrag ymod ++ modulesLoop rest
    else modulesLoop rest

/-- The complete modules-state document string built by
`yang_modules_state_get` into its cbuf, given the namespace argument of
ietf-yang-library and the configured module-set-id. -/
def modulesStateDoc (yspec : YangStmt) (nsArg moduleSetId : String) : String :=
  ("<modules-state xmlns=\"" ++ nsArg ++ "\">")
    ++ ("<module-set-id>" ++ moduleSetId ++ "</module-set-id>")
    ++ modulesLoop yspec.children
    ++ "</modules-state>"

/-- What happened to the caller-supplied `xret` tree in
`yang_modules_state_get`: untouched (fatal exit), an operation-failed
error document substituted, or the serialized document merged in. -/
inductive MsOut where
  | untouched
  | errdoc
  | merged (doc : String)
deriving DecidableEq, Repr

/-- Oracle environment for `yang_modules_state_get`: the configured
module-set-id option, cbuf allocation, the schema-aware parse of the
serialized document, success of building the operation-failed error
document, and the result of `netconf_trymerge`. -/
structure MsEnv where
  moduleSetId : String
  cbufNewOk : Bool
  parseOk : String → Bool
  opFailedXmlOk : Bool
  trymergeRet : Int

/-- Embedding of `yang_modules_state_get`: require the
`ietf-yang-library` module and its namespace in the spec (fatal when
absent), build the document, parse it back (a parse failure substitutes
an operation-failed document and returns the non-fatal status 1), and
otherwise merge it into `xret` returning the `netconf_trymerge`
status. -/
def yang_modules_state_get (env : MsEnv) (yspec : YangStmt) : Int × MsOut :=
  match yang_find yspec .Y_MODULE (some "ietf-yang-library") with
  | none => (-1, .untouched)
  | some ylib =>
    match yang_find ylib .Y_NAMESPACE none with
    | none => (-1, .untouched)
    | some yns =>
      if !env.cbufNewOk then (-1, .untouched)
      else
        let doc := modulesStateDoc yspec yns.arg env.moduleSetId
        if !env.parseOk doc then
          if !env.opFailedXmlOk then (-1, .untouched)
          else (1, .errdoc)
        else (env.trymergeRet, .merged doc)

/-- The syslog `LOG_DEBUG` priority. -/
def LOG_DEBUG : Int := 7

/-- Log sinks reachable from `clicon_log_str`. -/
inductive Sink where
  | syslogSink
  | stderrSink
  | stdoutSink
  | fileSink
deriving DecidableEq, Repr

/-- Observable effects of the logging code: a `vsnprintf` formatting
pass over the message, a `malloc` of the message buffer, and an emission
to a sink. -/
inductive LogEffect where
  | formatPass
  | allocMsg
  | emit (s : Sink) (msg : String)
deriving DecidableEq, Repr

/-- Global state of `clixon_log.c`: the `_clixon_debug` level, the
`_logflags` destination bitmask (one boolean per flag bit), and whether
`_logfile` is an open stream. -/
structure LogState where
  debug : Int
  fSyslog : Bool
  fStderr : Bool
  fStdout : Bool
  fFile : Bool
  logfile : Bool

/-- Oracle environment for a `clicon_debug` call: whether `malloc` and
the second `vsnprintf` round succeed. -/
structure LogEnv where
  mallocOk : Bool
  vsnprintfOk : Bool

/-- Embedding of `clicon_log_str`: emit to syslog when that flag is set
(syslog filters by its own mask, the call itself is made); then, unless
the process is not in debug mode and the priority is `LOG_DEBUG` or
higher, emit to stderr, stdout and the log file per the flags. -/
def clicon_log_str (st : LogState) (level : Int) (msg : String) : List LogEffect :=
  (if st.fSyslog then [.emit .syslogSink msg] else [])
    ++ (if st.debug = 0 ∧ LOG_DEBUG ≤ level then []
        else (if st.fStderr then [.emit .stderrSink msg] else [])
          ++ (if st.fStdout then [.emit .stdoutSink msg] else [])
          ++ (if st.fFile ∧ st.logfile then [.emit .fileSink msg] else []))

/-- Embedding of `clicon_debug`: return 0 immediately when the requested
level exceeds the global `_clixon_debug`; otherwise run the length
`vsnprintf` pass, `malloc` the message, format it, and hand it to
`clicon_log_str` at priority `LOG_DEBUG`. -/
def clicon_debug (env : LogEnv) (st : LogState) (dbglevel : Int) (msg : String) :
    Int × List LogEffect :=
  if st.debug < dbglevel then (0, [])
  else if !env.mallocOk then (-1, [.formatPass])
  else if !env.vsnprintfOk then (-1, [.formatPass, .allocMsg])
  else (0, [.formatPass, .allocMsg, .formatPass] ++ clicon_log_str st LOG_DEBUG msg)

/-- Embedding of `clicon_debug_init`: set the global `_clixon_debug`
level, and when a debug file stream is passed install it as
`_logfile`. -/
def clicon_debug_init (st : LogState) (dbglevel : Int) (f : Bool) : LogState :=
  { st with debug := dbglevel, logfile := if f then true else st.logfile }

/-- Classifier for the events a scalar-handler invocation in a given
mode may emit: datastore-mutating RPCs are tied to their phase (commit
only in the Commit phase, discard only in Undo, edit-config only in
Action and then only as a merge against the candidate target); all
non-RPC annotation events are unconstrained. -/
def hEventOk (mode : SnmpMode) (e : Event) : Bool :=
  match e with
  | .rpcCommit => mode == .MODE_SET_COMMIT
  | .rpcDiscardChanges => mode == .MODE_SET_UNDO
  | .rpcEditConfig t op _ =>
    mode == .MODE_SET_ACTION && t == "candidate" && op == .OP_MERGE
  | _ => true

/-- Translator oracle used by concrete test environments. -/
def trOkFn : Option String → TrRes := fun _ => TrRes.ok [65, 66]

/-- Payload serializer used by concrete test environments. -/
def payloadFn : String → String := fun v => "<x>" ++ v ++ "</x>"

/-- Fully-successful scalar environment with a stored value present. -/
def envBase : ScalarEnv :=
  { assertsOk := true
    yangTypes := some 4
    vbType := 4
    nsctxOk := true
    xpathOk := true
    xpath := "/t:x"
    rpcGetOk := true
    rpcGetErrDoc := false
    getValue := some (some "v")
    defaultVal := none
    yang2snmp := trOkFn
    setVarOk := true
    dbspecOk := true
    xmlNewOk := true
    apiPathFmtOk := true
    apiPath2xml := .ok
    xmlNewBodyOk := true
    snmp2yang := .ok "42"
    xmlValueSetOk := true
    cbufNewOk := true
    xml2cbufOk := true
    payload := payloadFn
    rpcEditOk := true
    rpcDiscardOk := true
    rpcCommitOk := true }

/-- Scalar environment with no stored value but a declared default. -/
def envDefault : ScalarEnv :=
  { envBase with getValue := none, defaultVal := some "7" }

/-- Scalar environment with neither a stored value nor a default. -/
def envNoInst : ScalarEnv :=
  { envBase with getValue := none, defaultVal := none }

/-- Scalar environment whose datastore get returns an embedded
rpc-error document. -/
def envErrDoc : ScalarEnv :=
  { envBase with rpcGetErrDoc := true }

/-- Scalar environment whose incoming variable carries a wrong ASN.1
tag (2 instead of the schema-derived 4). -/
def envWrongType : ScalarEnv :=
  { envBase with vbType := 2 }

/-- Scalar environment whose discard-changes RPC fails. -/
def envDiscardFail : ScalarEnv :=
  { envBase with rpcDiscardOk := false }

/-- Concrete datastore state with one staged candidate edit. -/
def ds0 : Datastore :=
  { running := ["r0"], candidate := ["r0", "staged-edit"] }

/-- Revision statement constructor for test trees. -/
def yrev (r : String) : YangStmt := .mk .Y_REVISION r none []

/-- Namespace statement constructor for test trees. -/
def ynsOf (s : String) : YangStmt := .mk .Y_NAMESPACE s none []

/-- Enabled feature statement for test trees. -/
def featOn : YangStmt := .mk .Y_FEATURE "f1" (some true) []

/-- Disabled feature statement for test trees. -/
def featOff : YangStmt := .mk .Y_FEATURE "f2" (some false) []

/-- Submodule statement (no revision) for test trees. -/
def submod1 : YangStmt := .mk .Y_SUBMODULE "sub1" none []

/-- Test module A: revision 2020-01-01, namespace, one enabled and one
disabled feature, one submodule. -/
def modA : YangStmt :=
  .mk .Y_MODULE "A" none [yrev "2020-01-01", ynsOf "urn:a", featOn, featOff, submod1]

/-- Test module B: no revision, namespace only. -/
def modB : YangStmt := .mk .Y_MODULE "B" none [ynsOf "urn:b"]

/-- Test ietf-yang-library module with revision and namespace. -/
def modLib : YangStmt :=
  .mk .Y_MODULE "ietf-yang-library" none
    [yrev "2019-01-04", ynsOf "urn:ietf:params:xml:ns:yang:ietf-yang-library"]

/-- Test spec containing ietf-yang-library, modules A and B, and a
non-module statement that the reporter must skip. -/
def demoSpec : YangStmt :=
  .mk .Y_OTHER "spec" none [modLib, modA, .mk .Y_LEAF "x" none [], modB]

/-- Test spec without ietf-yang-library. -/
def specNoLib : YangStmt := .mk .Y_OTHER "spec" none [modA, modB]

/-- Test ietf-yang-library module lacking a namespace. -/
def modLibNoNs : YangStmt := .mk .Y_MODULE "ietf-yang-library" none [yrev "2019-01-04"]

/-- Test spec whose ietf-yang-library has no namespace statement. -/
def specNoNs : YangStmt := .mk .Y_OTHER "spec" none [modLibNoNs]

/-- Modules-state environment where everything succeeds. -/
def msEnvOk : MsEnv :=
  { moduleSetId := "42"
    cbufNewOk := true
    parseOk := fun _ => true
    opFailedXmlOk := true
    trymergeRet := 0 }

/-- Modules-state environment whose parse of the serialized document
fails. -/
def msEnvParseFail : MsEnv :=
  { msEnvOk with parseOk := fun _ => false }

/-- Table-bound yang node without a list child. -/
def ysTableNoList : YangStmt := .mk .Y_OTHER "cont" none [.mk .Y_LEAF "l" none []]

/-- Table-bound yang node with a list child. -/
def ysTableList : YangStmt := .mk .Y_OTHER "cont" none [.mk .Y_LIST "t" none []]

/-- Table environment whose materialization succeeds. -/
def tenvOk : TableEnv := { tableCreateOk := true }

/-- Table environment whose materialization fails. -/
def tenvBad : TableEnv := { tableCreateOk := false }

/-- Concrete log state with every sink enabled. -/
def logSt0 : LogState :=
  { debug := 0, fSyslog := true, fStderr := true, fStdout := true, fFile := true, logfile := true }

/-- Concrete log environment where allocation and formatting succeed. -/
def logEnv0 : LogEnv := { mallocOk := true, vsnprintfOk := true }

/-- Revision argument of a statement: the argument of the revision child, or
the empty string when no revision child is declared. -/
def revArg (y : YangStmt) : String :=
  match yang_find y .Y_REVISION none with
  | some ys => ys.arg
  | none => ""

/-- Namespace argument of a statement: the argument of the namespace child,
or the empty string when no namespace child is declared. -/
def nsArgOf (y : YangStmt) : String :=
  match yang_find y .Y_NAMESPACE none with
  | some ys => ys.arg
  | none => ""

/-- String append is associative. -/
theorem str_append_assoc (a b c : String) : a ++ b ++ c = a ++ (b ++ c) := by
  apply String.ext
  simp [String.data_append]

/-- Every event emitted by `snmp_scalar_get` is admissible for any mode:
the read path issues no datastore-mutating RPC at all. -/
theorem snmp_scalar_get_events (env : ScalarEnv) (mode : SnmpMode) :
    ((snmp_scalar_get env).2).all (fun e => hEventOk mode e) = true := by
  unfold snmp_scalar_get
  repeat' split
  all_goals rfl

/-- Every event emitted by `snmp_scalar_set` is admissible for the
Action phase: at most one merge edit-config against the candidate. -/
theorem snmp_scalar_set_events (env : ScalarEnv) :
    ((snmp_scalar_set env).2).all (fun e => hEventOk .MODE_SET_ACTION e) = true := by
  unfold snmp_scalar_set
  repeat' split
  all_goals rfl

/-- Every event emitted by `snmp_scalar_handler` in a given mode is
admissible for that mode. -/
theorem snmp_scalar_handler_events (env : ScalarEnv) (mode : SnmpMode) :
    ∀ e ∈ (snmp_scalar_handler env mode).2, hEventOk mode e = true := by
  have hget := snmp_scalar_get_events env mode
  have hset := snmp_scalar_set_events env
  rw [List.all_eq_true] at hget hset
  intro e he
  unfold snmp_scalar_handler at he
  split at he
  · simp at he
  · split at he
    · simp at he
    · split at he
      · -- MODE_GET
        simp only [List.mem_cons] at he
        rcases he with rfl | he
        · rfl
        · exact hget e he
      · -- MODE_GETNEXT
        simp at he
      · -- MODE_SET_RESERVE1
        split at he
        · simp only [List.mem_singleton] at he
          subst he
          rfl
        · simp at he
      · -- MODE_SET_RESERVE2
        simp at he
      · -- MODE_SET_ACTION
        exact hset e he
      · -- MODE_SET_UNDO
        split at he
        all_goals
          simp only [List.mem_singleton] at he
        all_goals
          subst he
        all_goals rfl
      · -- MODE_SET_COMMIT
        split at he
        all_goals
          simp only [List.mem_singleton] at he
        all_goals
          subst he
        all_goals rfl
      · -- MODE_SET_FREE
        simp at he

/-- An event admissible for a mode other than the Commit phase leaves
the running configuration unchanged. -/
theorem hEventOk_keepsRunning (mode : SnmpMode) (e : Event)
    (hok : hEventOk mode e = true) (h : mode ≠ .MODE_SET_COMMIT) :
    ∀ ds, (dsStep ds e).running = ds.running := by
  intro ds
  cases e with
  | rpcCommit =>
    exact absurd (by simpa [hEventOk] using hok) h
  | rpcEditConfig t op p =>
    have ht : t = "candidate" := by
      simp only [hEventOk, Bool.and_eq_true, beq_iff_eq] at hok
      exact hok.1.2
    simp [dsStep, ht]
  | rpcDiscardChanges => rfl
  | rpcGet x => rfl
  | logNetconfErr => rfl
  | setReqErr r => rfl
  | setVarValue b => rfl
  | setVbType a => rfl

/-- Running a trace of running-preserving events preserves the running
configuration. -/
theorem dsRun_running_of (tr : List Event)
    (H : ∀ e ∈ tr, ∀ ds, (dsStep ds e).running = ds.running) :
    ∀ ds, (dsRun ds tr).running = ds.running := by
  induction tr with
  | nil => intro ds; rfl
  | cons e tl ih =>
    intro ds
    have h1 : dsRun ds (e :: tl) = dsRun (dsStep ds e) tl := rfl
    rw [h1, ih (fun x hx => H x (List.mem_cons_of_mem e hx)) (dsStep ds e),
        H e (List.mem_cons_self e tl) ds]

/-- The outer module loop equals the fragment concatenation over the
yang-module statements, in stored order. -/
theorem modulesLoop_eq_filter (l : List YangStmt) :
    modulesLoop l =
      (l.filter (fun m => m.keyword == .Y_MODULE)).foldr
        (fun m acc => moduleFrag m ++ acc) "" := by
  induction l with
  | nil => rfl
  | cons x xs ih =>
    by_cases hx : (x.keyword == .Y_MODULE) = true
    · simp [modulesLoop, List.filter_cons, hx, ih]
    · simp only [Bool.not_eq_true] at hx
      simp [modulesLoop, List.filter_cons, hx, ih]

/-- The revision fragment is always a revision element around the
revision argument (empty argument when none is declared). -/
theorem revisionFrag_eq (y : YangStmt) :
    revisionFrag y = "<revision>" ++ revArg y ++ "</revision>" := by
  unfold revisionFrag revArg
  cases yang_find y .Y_REVISION none <;> rfl

/-- The namespace fragment is always a namespace element around the
namespace argument (empty argument when none is declared). -/
theorem namespaceFrag_eq (y : YangStmt) :
    namespaceFrag y = "<namespace>" ++ nsArgOf y ++ "</namespace>" := by
  unfold namespaceFrag nsArgOf
  cases yang_find y .Y_NAMESPACE none <;> rfl

/-- C1: On a scalar Read (MODE_GET) with the preliminary steps (namespace
context, xpath, datastore get, no embedded rpc-error) succeeding:
a stored value at the path of the scalar is translated schema-to-protocol and
attached to the response variable; with no stored value but a declared
default, the translated default is attached; with neither, a per-object
no-such-instance error is set on the request context and the handler
still returns SNMP_ERR_NOERROR to the runtime. -/
theorem C1_scalar_read (env : ScalarEnv) (asn1 : Int)
    (ha : env.assertsOk = true) (ht : env.yangTypes = some asn1)
    (h1 : env.nsctxOk = true) (h2 : env.xpathOk = true)
    (h3 : env.rpcGetOk = true) (h4 : env.rpcGetErrDoc = false) :
    (∀ v bytes, env.getValue = some (some v) → env.yang2snmp (some v) = .ok bytes →
        env.setVarOk = true →
        snmp_scalar_handler env .MODE_GET =
          (.ret SNMP_ERR_NOERROR, [.setVbType asn1, .rpcGet env.xpath, .setVarValue bytes]))
  ∧ (∀ d bytes, env.getValue = none → env.defaultVal = some d →
        env.yang2snmp (some d) = .ok bytes → env.setVarOk = true →
        snmp_scalar_handler env .MODE_GET =
          (.ret SNMP_ERR_NOERROR, [.setVbType asn1, .rpcGet env.xpath, .setVarValue bytes]))
  ∧ (env.getValue = none → env.defaultVal = none →
        snmp_scalar_handler env .MODE_GET =
          (.ret SNMP_ERR_NOERROR,
            [.setVbType asn1, .rpcGet env.xpath, .setReqErr .noSuchInstance])) := by
  refine ⟨?_, ?_, ?_⟩
  · intro v bytes hv htr hs
    simp [snmp_scalar_handler, snmp_scalar_get, ha, ht, h1, h2, h3, h4, hv, htr, hs,
      SNMP_ERR_NOERROR]
  · intro d bytes hv hd htr hs
    simp [snmp_scalar_handler, snmp_scalar_get, ha, ht, h1, h2, h3, h4, hv, hd, htr, hs,
      SNMP_ERR_NOERROR]
  · intro hv hd
    simp [snmp_scalar_handler, snmp_scalar_get, ha, ht, h1, h2, h3, h4, hv, hd,
      SNMP_ERR_NOERROR]

/-- C1 witness: concrete environments exercising all three read cases. -/
theorem C1_scalar_read_witness :
    snmp_scalar_handler envBase .MODE_GET =
        (.ret SNMP_ERR_NOERROR, [.setVbType 4, .rpcGet "/t:x", .setVarValue [65, 66]])
  ∧ snmp_scalar_handler envDefault .MODE_GET =
        (.ret SNMP_ERR_NOERROR, [.setVbType 4, .rpcGet "/t:x", .setVarValue [65, 66]])
  ∧ snmp_scalar_handler envNoInst .MODE_GET =
        (.ret SNMP_ERR_NOERROR, [.setVbType 4, .rpcGet "/t:x", .setReqErr .noSuchInstance]) :=
  ⟨(C1_scalar_read envBase 4 rfl rfl rfl rfl rfl rfl).1 "v" [65, 66] rfl rfl rfl,
   (C1_scalar_read envDefault 4 rfl rfl rfl rfl rfl rfl).2.1 "7" [65, 66] rfl rfl rfl rfl,
   (C1_scalar_read envNoInst 4 rfl rfl rfl rfl rfl rfl).2.2 rfl rfl⟩

/-- C2: In the ReserveValidateType phase (MODE_SET_RESERVE1), an ASN.1
tag mismatch sets a per-object wrong-type error on the request context,
the handler returns SNMP_ERR_NOERROR (never a fatal status), and the
datastore is untouched, so other objects in the same PDU are
unaffected. -/
theorem C2_reserve1_wrong_type (env : ScalarEnv) (asn1 : Int)
    (ha : env.assertsOk = true) (ht : env.yangTypes = some asn1)
    (hm : env.vbType ≠ asn1) :
    snmp_scalar_handler env .MODE_SET_RESERVE1 =
        (.ret SNMP_ERR_NOERROR, [.setReqErr .wrongType])
  ∧ (∀ ds, dsRun ds (snmp_scalar_handler env .MODE_SET_RESERVE1).2 = ds) := by
  have h : snmp_scalar_handler env .MODE_SET_RESERVE1 =
      (.ret SNMP_ERR_NOERROR, [.setReqErr .wrongType]) := by
    simp [snmp_scalar_handler, ha, ht, hm]
  exact ⟨h, fun ds => by rw [h]; rfl⟩

/-- C2 witness: concrete wrong-type environment (tag 2 against schema
tag 4). -/
theorem C2_reserve1_wrong_type_witness :
    snmp_scalar_handler envWrongType .MODE_SET_RESERVE1 =
        (.ret SNMP_ERR_NOERROR, [.setReqErr .wrongType])
  ∧ dsRun ds0 (snmp_scalar_handler envWrongType .MODE_SET_RESERVE1).2 = ds0 :=
  ⟨(C2_reserve1_wrong_type envWrongType 4 rfl rfl (by decide)).1,
   (C2_reserve1_wrong_type envWrongType 4 rfl rfl (by decide)).2 ds0⟩

/-- C3: In every scalar-handler phase other than Commit, any edit-config
the handler issues is a merge against the candidate target and happens
only in the Action phase, no commit RPC is issued, and the running
configuration is unchanged. -/
theorem C3_candidate_only (env : ScalarEnv) (mode : SnmpMode)
    (h : mode ≠ .MODE_SET_COMMIT) :
    (∀ t op p, Event.rpcEditConfig t op p ∈ (snmp_scalar_handler env mode).2 →
        t = "candidate" ∧ op = .OP_MERGE ∧ mode = .MODE_SET_ACTION)
  ∧ Event.rpcCommit ∉ (snmp_scalar_handler env mode).2
  ∧ (∀ ds, (dsRun ds (snmp_scalar_handler env mode).2).running = ds.running) := by
  refine ⟨?_, ?_, ?_⟩
  · intro t op p hmem
    have hok := snmp_scalar_handler_events env mode _ hmem
    simp only [hEventOk, Bool.and_eq_true, beq_iff_eq] at hok
    exact ⟨hok.1.2, hok.2, hok.1.1⟩
  · intro hmem
    have hok := snmp_scalar_handler_events env mode _ hmem
    simp only [hEventOk, beq_iff_eq] at hok
    exact h hok
  · exact dsRun_running_of _
      (fun e he => hEventOk_keepsRunning mode e (snmp_scalar_handler_events env mode e he) h)

/-- C3 witness: the Action phase on a concrete environment issues no
commit and leaves the running configuration of a concrete datastore
unchanged. -/
theorem C3_candidate_only_witness :
    Event.rpcCommit ∉ (snmp_scalar_handler envBase .MODE_SET_ACTION).2
  ∧ (dsRun ds0 (snmp_scalar_handler envBase .MODE_SET_ACTION).2).running = ds0.running :=
  ⟨(C3_candidate_only envBase .MODE_SET_ACTION (by decide)).2.1,
   (C3_candidate_only envBase .MODE_SET_ACTION (by decide)).2.2 ds0⟩

/-- C4: The Undo phase issues exactly one discard-changes RPC, which
resets the whole candidate session to running (discarding every staged
edit, including those of objects that succeeded Action), and the handler
returns a fatal error exactly when that RPC fails. -/
theorem C4_undo_discards (env : ScalarEnv) (asn1 : Int)
    (ha : env.assertsOk = true) (ht : env.yangTypes = some asn1) :
    (snmp_scalar_handler env .MODE_SET_UNDO).2 = [.rpcDiscardChanges]
  ∧ (∀ ds, (dsRun ds (snmp_scalar_handler env .MODE_SET_UNDO).2).candidate = ds.running
        ∧ (dsRun ds (snmp_scalar_handler env .MODE_SET_UNDO).2).running = ds.running)
  ∧ ((snmp_scalar_handler env .MODE_SET_UNDO).1 = .ret SNMP_ERR_NOERROR ↔
        env.rpcDiscardOk = true)
  ∧ (env.rpcDiscardOk = false → (snmp_scalar_handler env .MODE_SET_UNDO).1 = .ret (-1)) := by
  by_cases hd : env.rpcDiscardOk = true
  · have h : snmp_scalar_handler env .MODE_SET_UNDO =
        (.ret SNMP_ERR_NOERROR, [.rpcDiscardChanges]) := by
      simp [snmp_scalar_handler, ha, ht, hd]
    rw [h]
    exact ⟨rfl, fun ds => ⟨rfl, rfl⟩, by simp [hd], by simp [hd]⟩
  · have hd' : env.rpcDiscardOk = false := by
      simpa using hd
    have h : snmp_scalar_handler env .MODE_SET_UNDO =
        (.ret (-1), [.rpcDiscardChanges]) := by
      simp [snmp_scalar_handler, ha, ht, hd']
    rw [h]
    refine ⟨rfl, fun ds => ⟨rfl, rfl⟩, ?_, fun _ => rfl⟩
    simp [hd', SNMP_ERR_NOERROR]

/-- C4 witness: Undo on a concrete environment with a staged candidate
edit, plus the failing-RPC case. -/
theorem C4_undo_discards_witness :
    (snmp_scalar_handler envBase .MODE_SET_UNDO).2 = [.rpcDiscardChanges]
  ∧ (dsRun ds0 (snmp_scalar_handler envBase .MODE_SET_UNDO).2).candidate = ds0.running
  ∧ (snmp_scalar_handler envDiscardFail .MODE_SET_UNDO).1 = .ret (-1) :=
  ⟨(C4_undo_discards envBase 4 rfl rfl).1,
   ((C4_undo_discards envBase 4 rfl rfl).2.1 ds0).1,
   (C4_undo_discards envDiscardFail 4 rfl rfl).2.2.2 rfl⟩

/-- C5: The modules-state document contains one module entry per module
node of the spec in stored order with no filtering; every module entry
contains a revision element (empty content when no revision is declared,
never omitted) and a namespace element (empty if none); a feature child
is emitted exactly when it is enabled; and a submodule child is emitted
with its name and a revision element (empty if none). -/
theorem C5_modules_state (yspec : YangStmt) (ns msid : String) :
    modulesStateDoc yspec ns msid =
      ("<modules-state xmlns=\"" ++ ns ++ "\">")
        ++ ("<module-set-id>" ++ msid ++ "</module-set-id>")
        ++ ((yspec.children.filter (fun m => m.keyword == .Y_MODULE)).foldr
              (fun m acc => moduleFrag m ++ acc) "")
        ++ "</modules-state>"
  ∧ (∀ m : YangStmt, ∃ pre post,
        moduleFrag m = pre ++ ("<revision>" ++ revArg m ++ "</revision>") ++ post
        ∧ (yang_find m .Y_REVISION none = none → revArg m = ""))
  ∧ (∀ m : YangStmt, ∃ pre post,
        moduleFrag m = pre ++ ("<namespace>" ++ nsArgOf m ++ "</namespace>") ++ post
        ∧ (yang_find m .Y_NAMESPACE none = none → nsArgOf m = ""))
  ∧ (∀ yc : YangStmt, yc.keyword = .Y_FEATURE →
        (yc.cv = some true → childFrag yc = "<feature>" ++ yc.arg ++ "</feature>")
        ∧ (yc.cv ≠ some true → childFrag yc = ""))
  ∧ (∀ yc : YangStmt, yc.keyword = .Y_SUBMODULE →
        childFrag yc =
          "<submodule>" ++ ("<name>" ++ yc.arg ++ "</name>")
            ++ ("<revision>" ++ revArg yc ++ "</revision>") ++ "</submodule>") := by
  refine ⟨?_, ?_, ?_, ?_, ?_⟩
  · rw [modulesStateDoc, modulesLoop_eq_filter]
  · intro m
    refine ⟨"<module>" ++ ("<name>" ++ m.arg ++ "</name>"),
            namespaceFrag m ++ childLoop m.children ++ "</module>", ?_, ?_⟩
    · simp only [moduleFrag, revisionFrag_eq, str_append_assoc]
    · intro h
      simp [revArg, h]
  · intro m
    refine ⟨"<module>" ++ ("<name>" ++ m.arg ++ "</name>")
              ++ ("<revision>" ++ revArg m ++ "</revision>"),
            childLoop m.children ++ "</module>", ?_, ?_⟩
    · simp only [moduleFrag, revisionFrag_eq, namespaceFrag_eq, str_append_assoc]
    · intro h
      simp [nsArgOf, h]
  · intro yc hk
    constructor
    · intro hcv
      simp [childFrag, hk, hcv]
    · intro hcv
      simp [childFrag, hk, hcv]
  · intro yc hk
    simp only [childFrag, hk, revisionFrag_eq, str_append_assoc]

/-- C5 witness: concrete feature, submodule and no-revision module
behaviour. -/
theorem C5_modules_state_witness :
    childFrag featOn = "<feature>f1</feature>"
  ∧ childFrag featOff = ""
  ∧ childFrag submod1 = "<submodule><name>sub1</name><revision></revision></submodule>"
  ∧ revArg modB = "" := by
  refine ⟨((C5_modules_state demoSpec "u" "42").2.2.2.1 featOn rfl).1 rfl,
          ((C5_modules_state demoSpec "u" "42").2.2.2.1 featOff rfl).2 (by decide),
          ?_, ?_⟩
  · have h := (C5_modules_state demoSpec "u" "42").2.2.2.2 submod1 rfl
    exact h
  · rcases (C5_modules_state demoSpec "u" "42").2.1 modB with ⟨p, q, h1, h2⟩
    exact h2 rfl

/-- C6: The modules-state reporter returns the fatal -1 (touching
nothing) exactly when the ietf-yang-library module or its namespace
statement is absent from the spec (assuming buffer allocation, the
error-document builder and the final merge all succeed), whereas a parse
failure of the serialized document substitutes an operation-failed error
document and returns the distinct non-fatal status 1. -/
theorem C6_modules_state_status (env : MsEnv) (yspec : YangStmt)
    (hcb : env.cbufNewOk = true) (hop : env.opFailedXmlOk = true)
    (htm : env.trymergeRet = 0) :
    ((yang_modules_state_get env yspec).1 = -1 ↔
       (yang_find yspec .Y_MODULE (some "ietf-yang-library") = none ∨
        ∃ ylib, yang_find yspec .Y_MODULE (some "ietf-yang-library") = some ylib ∧
                yang_find ylib .Y_NAMESPACE none = none))
  ∧ ((yang_modules_state_get env yspec).1 = -1 →
        (yang_modules_state_get env yspec).2 = .untouched)
  ∧ (∀ ylib yns1, yang_find yspec .Y_MODULE (some "ietf-yang-library") = some ylib →
        yang_find ylib .Y_NAMESPACE none = some yns1 →
        env.parseOk (modulesStateDoc yspec yns1.arg env.moduleSetId) = false →
        yang_modules_state_get env yspec = (1, .errdoc)) := by
  rcases hlib : yang_find yspec .Y_MODULE (some "ietf-yang-library") with _ | ylib
  · refine ⟨?_, ?_, ?_⟩
    · simp [yang_modules_state_get, hlib]
    · intro _
      simp [yang_modules_state_get, hlib]
    · intro ylib2 yns2 h1 h2 hp
      cases h1
  · rcases hns : yang_find ylib .Y_NAMESPACE none with _ | yns1
    · have hres : yang_modules_state_get env yspec = (-1, .untouched) := by
        simp [yang_modules_state_get, hlib, hns]
      refine ⟨?_, ?_, ?_⟩
      · rw [hres]
        exact iff_of_true rfl (Or.inr ⟨ylib, rfl, hns⟩)
      · intro _
        rw [hres]
      · intro ylib2 yns2 h1 h2 hp
        cases h1
        rw [hns] at h2
        cases h2
    · by_cases hp : env.parseOk (modulesStateDoc yspec yns1.arg env.moduleSetId) = true
      · have hres : yang_modules_state_get env yspec =
            (env.trymergeRet, .merged (modulesStateDoc yspec yns1.arg env.moduleSetId)) := by
          simp [yang_modules_state_get, hlib, hns, hcb, hp]
        refine ⟨?_, ?_, ?_⟩
        · rw [hres, htm]
          constructor
          · intro h0
            simp at h0
          · rintro (h | ⟨ylib2, h1, h2⟩)
            · cases h
            · cases h1
              rw [hns] at h2
              cases h2
        · intro h0
          rw [hres, htm] at h0
          simp at h0
        · intro ylib2 yns2 h1 h2 hp2
          cases h1
          rw [hns] at h2
          cases h2
          rw [hp] at hp2
          cases hp2
      · have hp' : env.parseOk (modulesStateDoc yspec yns1.arg env.moduleSetId) = false := by
          simpa using hp
        have hres : yang_modules_state_get env yspec = (1, .errdoc) := by
          simp [yang_modules_state_get, hlib, hns, hcb, hp', hop]
        refine ⟨?_, ?_, ?_⟩
        · rw [hres]
          constructor
          · intro h0
            simp at h0
          · rintro (h | ⟨ylib2, h1, h2⟩)
            · cases h
            · cases h1
              rw [hns] at h2
              cases h2
        · intro h0
          rw [hres] at h0
          simp at h0
        · intro ylib2 yns2 h1 h2 hp2
          exact hres

/-- C6 witness: concrete specs exercising the missing-module,
missing-namespace and parse-failure cases. -/
theorem C6_modules_state_status_witness :
    (yang_modules_state_get msEnvOk specNoLib).1 = -1
  ∧ (yang_modules_state_get msEnvOk specNoLib).2 = .untouched
  ∧ (yang_modules_state_get msEnvOk specNoNs).1 = -1
  ∧ yang_modules_state_get msEnvParseFail demoSpec = (1, .errdoc) := by
  have h1 := C6_modules_state_status msEnvOk specNoLib rfl rfl rfl
  have h2 := C6_modules_state_status msEnvOk specNoNs rfl rfl rfl
  have h3 := C6_modules_state_status msEnvParseFail demoSpec rfl rfl rfl
  exact ⟨h1.1.mpr (Or.inl rfl),
         h1.2.1 (h1.1.mpr (Or.inl rfl)),
         h2.1.mpr (Or.inr ⟨modLibNoNs, rfl, rfl⟩),
         h3.2.2 modLib (ynsOf "urn:ietf:params:xml:ns:yang:ietf-yang-library") rfl rfl rfl⟩

/-- C7 counterexample: when the datastore get succeeds at transport
level but the response contains an embedded rpc-error document, the
scalar read path returns the fatal -1 and the scalar handler fails the
whole invocation, producing no operation-failed result — the embedded
error is not handled as a recoverable document-level condition. -/
theorem C7_errdoc_counterexample :
    snmp_scalar_get envErrDoc = (-1, [.rpcGet "/t:x", .logNetconfErr])
  ∧ snmp_scalar_handler envErrDoc .MODE_GET =
      (.ret (-1), [.setVbType 4, .rpcGet "/t:x", .logNetconfErr]) := by
  constructor <;> rfl

/-- C7 amended: when the datastore get returns a response containing an
embedded rpc-error document, the scalar read path logs the netconf error
and fails the handler invocation fatally (return -1, exactly like a
transport failure); no operation-failed document is produced. -/
theorem C7_errdoc_fatal (env : ScalarEnv) (asn1 : Int)
    (ha : env.assertsOk = true) (ht : env.yangTypes = some asn1)
    (h1 : env.nsctxOk = true) (h2 : env.xpathOk = true)
    (h3 : env.rpcGetOk = true) (h4 : env.rpcGetErrDoc = true) :
    snmp_scalar_get env = (-1, [.rpcGet env.xpath, .logNetconfErr])
  ∧ snmp_scalar_handler env .MODE_GET =
      (.ret (-1), [.setVbType asn1, .rpcGet env.xpath, .logNetconfErr]) := by
  have hg : snmp_scalar_get env = (-1, [.rpcGet env.xpath, .logNetconfErr]) := by
    simp [snmp_scalar_get, h1, h2, h3, h4]
  refine ⟨hg, ?_⟩
  simp [snmp_scalar_handler, ha, ht, hg]

/-- C7 amended witness: the concrete embedded-error environment. -/
theorem C7_errdoc_fatal_witness :
    snmp_scalar_get envErrDoc = (-1, [.rpcGet "/t:x", .logNetconfErr])
  ∧ snmp_scalar_handler envErrDoc .MODE_GET =
      (.ret (-1), [.setVbType 4, .rpcGet "/t:x", .logNetconfErr]) :=
  C7_errdoc_fatal envErrDoc 4 rfl rfl rfl rfl rfl rfl

/-- C8: The table handler is a no-op success when the bound schema node
has no list child; otherwise it materializes the table (the only
possible failure) and performs no further per-mode processing for any
operation mode, returning SNMP_ERR_NOERROR — its result does not depend
on the mode at all. -/
theorem C8_table_handler (env : TableEnv) (ys : YangStmt) (mode : SnmpMode) :
    (yang_find ys .Y_LIST none = none →
        snmp_table_handler env ys mode = (SNMP_ERR_NOERROR, []))
  ∧ ((yang_find ys .Y_LIST none).isSome = true → env.tableCreateOk = true →
        snmp_table_handler env ys mode = (SNMP_ERR_NOERROR, [.tableCreate]))
  ∧ ((yang_find ys .Y_LIST none).isSome = true → env.tableCreateOk = false →
        snmp_table_handler env ys mode = (SNMP_ERR_GENERR, [.tableCreate]))
  ∧ (∀ m2 : SnmpMode, snmp_table_handler env ys mode = snmp_table_handler env ys m2) := by
  refine ⟨?_, ?_, ?_, fun m2 => rfl⟩
  · intro h
    simp [snmp_table_handler, h]
  · intro h hc
    rcases Option.isSome_iff_exists.mp h with ⟨yl, hyl⟩
    simp [snmp_table_handler, hyl, hc]
  · intro h hc
    rcases Option.isSome_iff_exists.mp h with ⟨yl, hyl⟩
    simp [snmp_table_handler, hyl, hc]

/-- C8 witness: concrete table environments with and without a list
child, with materialization succeeding and failing, across modes. -/
theorem C8_table_handler_witness :
    snmp_table_handler tenvOk ysTableNoList .MODE_GET = (SNMP_ERR_NOERROR, [])
  ∧ snmp_table_handler tenvOk ysTableList .MODE_GETNEXT = (SNMP_ERR_NOERROR, [.tableCreate])
  ∧ snmp_table_handler tenvBad ysTableList .MODE_SET_ACTION = (SNMP_ERR_GENERR, [.tableCreate])
  ∧ snmp_table_handler tenvOk ysTableList .MODE_GET =
      snmp_table_handler tenvOk ysTableList .MODE_SET_COMMIT :=
  ⟨(C8_table_handler tenvOk ysTableNoList .MODE_GET).1 rfl,
   (C8_table_handler tenvOk ysTableList .MODE_GETNEXT).2.1 rfl rfl,
   (C8_table_handler tenvBad ysTableList .MODE_SET_ACTION).2.2.1 rfl rfl,
   (C8_table_handler tenvOk ysTableList .MODE_GET).2.2.2 .MODE_SET_COMMIT⟩

/-- C9: The Free phase (MODE_SET_FREE) issues no RPC, performs no
datastore mutation, always returns SNMP_ERR_NOERROR, and repeating it
any number of times still leaves any datastore state unchanged. -/
theorem C9_free_noop (env : ScalarEnv) (asn1 : Int)
    (ha : env.assertsOk = true) (ht : env.yangTypes = some asn1) :
    snmp_scalar_handler env .MODE_SET_FREE = (.ret SNMP_ERR_NOERROR, [])
  ∧ (∀ ds, dsRun ds (snmp_scalar_handler env .MODE_SET_FREE).2 = ds)
  ∧ (∀ n ds, (fun d => dsRun d (snmp_scalar_handler env .MODE_SET_FREE).2)^[n] ds = ds) := by
  have h : snmp_scalar_handler env .MODE_SET_FREE = (.ret SNMP_ERR_NOERROR, []) := by
    simp [snmp_scalar_handler, ha, ht]
  refine ⟨h, fun ds => by rw [h]; rfl, fun n ds => ?_⟩
  induction n with
  | zero => rfl
  | succ k ih =>
    rw [Function.iterate_succ_apply]
    have hds : dsRun ds (snmp_scalar_handler env .MODE_SET_FREE).2 = ds := by
      rw [h]; rfl
    rw [hds]
    exact ih

/-- C9 witness: Free on a concrete environment and datastore, iterated. -/
theorem C9_free_noop_witness :
    snmp_scalar_handler envBase .MODE_SET_FREE = (.ret SNMP_ERR_NOERROR, [])
  ∧ dsRun ds0 (snmp_scalar_handler envBase .MODE_SET_FREE).2 = ds0
  ∧ (fun d => dsRun d (snmp_scalar_handler envBase .MODE_SET_FREE).2)^[3] ds0 = ds0 :=
  ⟨(C9_free_noop envBase 4 rfl rfl).1,
   (C9_free_noop envBase 4 rfl rfl).2.1 ds0,
   (C9_free_noop envBase 4 rfl rfl).2.2 3 ds0⟩

/-- C10: A `clicon_debug` call at a level strictly greater than the
global level last set by `clicon_debug_init` returns 0 with no effects
at all: no output to any sink and, since the effect list is empty, no
message formatting or allocation either. -/
theorem C10_debug_filtered (st0 : LogState) (lvl : Int) (f : Bool)
    (env : LogEnv) (d : Int) (msg : String) (h : lvl < d) :
    clicon_debug env (clicon_debug_init st0 lvl f) d msg = (0, []) := by
  simp [clicon_debug, clicon_debug_init, h]

/-- C10 witness: level-2 debug call after initializing the level to 1. -/
theorem C10_debug_filtered_witness :
    clicon_debug logEnv0 (clicon_debug_init logSt0 1 false) 2 "message" = (0, []) :=
  C10_debug_filtered logSt0 1 false logEnv0 2 "message" (by decide)

end Clixon
